import Mathlib

/-!
Shallow embedding of the SoundCloud-Downloader Telegram bot
(src/bot.py and src/health_check_server.py).

The bot is a single linear orchestration function `handle_message` plus a
tenacity-decorated `send_audio_with_retry`.  External effects (subprocess
calls, Telegram API calls, the filesystem) are modelled by an `Env` oracle
describing the outcome of each external interaction, and the handler is a
pure function from the incoming message and that oracle to the list of
observable actions it performs, in order.
-/

namespace SCDL

/-! ## Python string primitives, modelled structurally on `List Char` -/

/-- Python `str.strip()`: drop whitespace from both ends. -/
def pyStrip (s : String) : String :=
  (((s.data.dropWhile Char.isWhitespace).reverse.dropWhile Char.isWhitespace).reverse).asString

/-- Occurrence of `needle` as a contiguous substring of `l`
(Python `needle in hay` for a nonempty needle). -/
def subOccurs (needle : List Char) : List Char → Bool
  | [] => needle.isEmpty
  | c :: rest => needle.isPrefixOf (c :: rest) || subOccurs needle rest

/-- Python `needle in hay` (substring containment). -/
def strContainsSub (hay needle : String) : Bool :=
  subOccurs needle.data hay.data

/-- Helper for `pySplit`: fuel-driven left-to-right scan cutting at each
non-overlapping occurrence of `sep` (Python `str.split(sep)` semantics). -/
def splitSepFuel (sep : List Char) : Nat → List Char → List Char → List (List Char)
  | _, [], acc => [acc.reverse]
  | 0, l, acc => [acc.reverse ++ l]
  | fuel + 1, c :: rest, acc =>
    if sep.isPrefixOf (c :: rest) then
      acc.reverse :: splitSepFuel sep fuel (List.drop sep.length (c :: rest)) []
    else
      splitSepFuel sep fuel rest (c :: acc)

/-- Python `s.split(sep)` for a nonempty separator string. -/
def pySplit (s sep : String) : List String :=
  (splitSepFuel sep.data s.data.length s.data []).map List.asString

/-- Decimal digits to a natural number. -/
def digitsToNat (l : List Char) : Nat :=
  l.foldl (fun n c => n * 10 + (c.toNat - 48)) 0

/-- Python `int(float(s))` for the fixed-point decimal literals ffprobe
prints (optional sign, digits, optional fractional part); `none` when
`float(s)` would raise `ValueError`.  `int` truncates toward zero, so the
result is the signed integer part. -/
def pyTruncFloat (s : String) : Option Int :=
  let (sign, rest) : Int × List Char :=
    match s.data with
    | '-' :: r => (-1, r)
    | '+' :: r => (1, r)
    | r => (1, r)
  let intPart := rest.takeWhile Char.isDigit
  let rest2 := rest.dropWhile Char.isDigit
  match rest2 with
  | [] => if intPart.isEmpty then none else some (sign * digitsToNat intPart)
  | '.' :: frac =>
    if frac.all Char.isDigit && !(intPart.isEmpty && frac.isEmpty) then
      some (sign * digitsToNat intPart)
    else none
  | _ => none

/-! ## Metadata parsing and name sanitization (src/bot.py lines 49-66) -/

/-- The characters of the character class in
`invalid_chars = r'[/\\:*?"<>|()]'` (src/bot.py line 58). -/
def invalidChar (c : Char) : Bool :=
  c = '/' || c = '\\' || c = ':' || c = '*' || c = '?' || c = '"' ||
  c = '<' || c = '>' || c = '|' || c = '(' || c = ')'

/-- `re.sub(invalid_chars, '_', s.strip())[:50]` (src/bot.py lines 59-60):
strip, replace each invalid character by an underscore, keep the first 50
characters. -/
def sanitize (s : String) : String :=
  (((pyStrip s).data.map (fun c => if invalidChar c then '_' else c)).take 50).asString

/-- `artist, title, ext = info_output.split('|||')` (src/bot.py line 55):
the triple unpack succeeds exactly when the split yields three parts,
otherwise Python raises `ValueError`. -/
def parseInfo (s : String) : Option (String × String × String) :=
  match pySplit s "|||" with
  | [a, t, e] => some (a, t, e)
  | _ => none

/-- `duration = int(float(duration_output)) if duration_output else None`
guarded by `try ... except` (src/bot.py lines 86-99).  The argument is the
ffprobe interaction outcome: `none` when `check_output` raised (failure is
caught, yielding no duration), `some out` for printed output `out`. -/
def durationOf (probe : Option String) : Option Int :=
  match probe with
  | none => none
  | some out =>
    let t := pyStrip out
    if t.data.isEmpty then none
    else pyTruncFloat t

/-! ## The external commands built by handle_message -/

/-- `info_cmd` (src/bot.py line 51). -/
def infoCmd (url : String) : List String :=
  ["yt-dlp", "--print", "%(uploader)s|||%(title)s|||%(ext)s", url]

/-- `dl_cmd` (src/bot.py lines 73-76). -/
def dlCmd (filePath url : String) : List String :=
  ["yt-dlp", "-x", "--embed-metadata", "--embed-thumbnail", "-o", filePath, url]

/-- `duration_cmd` (src/bot.py lines 88-92). -/
def durationCmd (filePath : String) : List String :=
  ["ffprobe", "-v", "error", "-show_entries", "format=duration", "-of",
   "default=noprint_wrappers=1:nokey=1", filePath]

/-- `ffmpeg_cmd` (src/bot.py lines 104-110). -/
def ffmpegCmd (filePath taggedPath title artist : String) : List String :=
  ["ffmpeg", "-y", "-i", filePath,
   "-metadata", "album=" ++ title,
   "-metadata", "album_artist=" ++ artist,
   "-metadata", "track=01",
   "-codec", "copy", taggedPath]

/-! ## The message handler as a trace-producing function -/

/-- The fields of a Telegram message that handle_message reads. -/
structure Message where
  text : String
  chatId : Nat
  messageId : Nat
deriving DecidableEq

/-- Abstract identity of the Python exception that reaches the outer
`except` block of handle_message (its `str(e)` is interpolated into the
error reply; we keep the exception identity rather than its rendering). -/
inductive PyErr where
  /-- `subprocess.check_output(info_cmd)` raised. -/
  | calledProcessInfo
  /-- the 3-way unpack of `info_output.split('|||')` raised `ValueError`;
  the payload is the number of parts the split produced. -/
  | unpackMismatch (parts : Nat)
  /-- `subprocess.check_call(dl_cmd)` raised. -/
  | calledProcessDownload
  /-- `FileNotFoundError` raised at src/bot.py line 81. -/
  | fileNotFound (path : String)
  /-- `subprocess.check_call(ffmpeg_cmd)` raised. -/
  | calledProcessFfmpeg
  /-- the fallback `bot.send_document` raised. -/
  | documentSendFailed
deriving DecidableEq

/-- The observable actions of handle_message, in program order. -/
inductive Action where
  /-- `bot.reply_to(message, text)`. -/
  | replyTo (text : String)
  /-- `bot.reply_to(message, f"Error processing the link: ...")`
  in the outer except block (src/bot.py line 145). -/
  | errorReply (e : PyErr)
  /-- `subprocess.check_output(info_cmd)` (src/bot.py line 52). -/
  | fetchInfo (cmd : List String)
  /-- `os.makedirs(folder, exist_ok=True)` (src/bot.py line 69). -/
  | makedirs (folder : String)
  /-- `subprocess.check_call(dl_cmd)` (src/bot.py line 77). -/
  | download (cmd : List String)
  /-- the ffprobe `subprocess.check_output(duration_cmd)` (line 93). -/
  | probeDuration (cmd : List String)
  /-- the ffmpeg tagging `subprocess.check_call(ffmpeg_cmd)` (line 111). -/
  | tagAudio (cmd : List String)
  /-- `os.replace(tagged_path, file_path)` (line 115). -/
  | replaceFile (src dst : String)
  /-- `send_audio_with_retry(chat_id, file, title=, performer=, duration=,
  reply_to_message_id=)` (src/bot.py lines 121-128). -/
  | sendAudio (chatId : Nat) (file title performer : String)
      (duration : Option Int) (replyToMessageId : Nat)
  /-- fallback `bot.send_document(chat_id, file, visible_file_name=,
  caption=, reply_to_message_id=, timeout=300)` (lines 132-139). -/
  | sendDocument (chatId : Nat) (file visibleFileName caption : String)
      (replyToMessageId : Nat)
  /-- `shutil.rmtree(folder)` in the finally block (line 151). -/
  | rmtree (folder : String)
deriving DecidableEq

/-- Oracle for the outcome of each external interaction of one
handle_message run.  A `Bool` field is `false` when that call raises; an
`Option String` field is `none` when the call raises and `some out` when it
prints `out`. -/
structure Env where
  /-- stdout of `check_output(info_cmd)`, `none` if it raised. -/
  infoOutput : Option String
  /-- whether `check_call(dl_cmd)` succeeded. -/
  downloadOk : Bool
  /-- `os.path.exists(file_path)` after the download. -/
  fileExists : Bool
  /-- stdout of the ffprobe call, `none` if it raised. -/
  probeOutput : Option String
  /-- whether `check_call(ffmpeg_cmd)` succeeded. -/
  ffmpegOk : Bool
  /-- whether `send_audio_with_retry` returned normally (`false`: it raised
  some exception, retries exhausted or not retryable). -/
  audioSendOk : Bool
  /-- whether the fallback `bot.send_document` returned normally. -/
  documentSendOk : Bool
deriving DecidableEq

/-- The `try` block of handle_message (src/bot.py lines 45-141): the
actions performed, the value of the `folder` variable (`none` while it is
still `None`), and the exception escaping to the outer `except` block, if
any. -/
def tryBody (msg : Message) (env : Env) (url : String) :
    List Action × Option String × Option PyErr :=
  let a0 : List Action :=
    [.replyTo "Processing your SoundCloud link... This may take a moment.",
     .fetchInfo (infoCmd url)]
  match env.infoOutput with
  | none => (a0, none, some .calledProcessInfo)
  | some raw =>
    let infoOutput := pyStrip raw
    match parseInfo infoOutput with
    | none => (a0, none, some (.unpackMismatch (pySplit infoOutput "|||").length))
    | some (rawArtist, rawTitle, ext) =>
      let artist := sanitize rawArtist
      let title := sanitize rawTitle
      let folder := "/tmp/" ++ (artist ++ " - " ++ title)
      let filePath := folder ++ "/" ++ ("01 " ++ title ++ "." ++ ext)
      let a1 := a0 ++ [.makedirs folder, .download (dlCmd filePath url)]
      if !env.downloadOk then (a1, some folder, some .calledProcessDownload)
      else if !env.fileExists then (a1, some folder, some (.fileNotFound filePath))
      else
        let duration := durationOf env.probeOutput
        let taggedPath := folder ++ "/" ++ ("01 " ++ title ++ " (tagged)." ++ ext)
        let a2 := a1 ++ [.probeDuration (durationCmd filePath),
                         .tagAudio (ffmpegCmd filePath taggedPath title artist)]
        if !env.ffmpegOk then (a2, some folder, some .calledProcessFfmpeg)
        else
          let a3 := a2 ++ [.replaceFile taggedPath filePath,
                           .sendAudio msg.chatId filePath title artist duration msg.messageId]
          if env.audioSendOk then (a3, some folder, none)
          else
            let a4 := a3 ++ [.sendDocument msg.chatId filePath
                              (artist ++ " - " ++ title ++ "." ++ ext)
                              (artist ++ " - " ++ title) msg.messageId]
            if env.documentSendOk then (a4, some folder, none)
            else (a4, some folder, some .documentSendFailed)

/-- handle_message (src/bot.py lines 31-153) as a pure function from the
message and the environment oracle to the ordered list of observable
actions: the URL-substring guard, then the `try` body, then the outer
`except` reply if an exception escaped, then the `finally` cleanup, which
removes `folder` whenever it was assigned (assignment at line 64 is
immediately followed by `os.makedirs` at line 69, so the assigned folder
exists at cleanup time). -/
def handle_message (msg : Message) (env : Env) : List Action :=
  let url := pyStrip msg.text
  if !strContainsSub url "soundcloud.com" then
    [.replyTo "Please send a valid SoundCloud track URL."]
  else
    match tryBody msg env url with
    | (acts, folder?, err?) =>
      let acts2 := match err? with
        | none => acts
        | some e => acts ++ [.errorReply e]
      match folder? with
      | some f => acts2 ++ [.rmtree f]
      | none => acts2

/-- Whether directory `f` exists after running the actions of a trace,
starting from a state in which it does not exist: `makedirs f` creates it,
`rmtree f` removes it. -/
def folderExistsAfter (f : String) (acts : List Action) : Bool :=
  acts.foldl
    (fun st a =>
      match a with
      | .makedirs g => if g = f then true else st
      | .rmtree g => if g = f then false else st
      | _ => st)
    false

/-- Is this action a `send_audio_with_retry` delivery call? -/
def isAudioSend : Action → Bool
  | .sendAudio _ _ _ _ _ _ => true
  | _ => false

/-- Is this action a fallback `bot.send_document` delivery call? -/
def isDocumentSend : Action → Bool
  | .sendDocument _ _ _ _ _ => true
  | _ => false

/-- Number of audio delivery calls in a trace. -/
def countAudioSends (acts : List Action) : Nat :=
  (acts.filter isAudioSend).length

/-- Number of document delivery calls in a trace. -/
def countDocumentSends (acts : List Action) : Nat :=
  (acts.filter isDocumentSend).length

/-! ## send_audio_with_retry (src/bot.py lines 16-29)

The tenacity decorator is
`retry(stop=stop_after_attempt(3), wait=wait_exponential(multiplier=1, min=4, max=10),
       retry=retry_if_exception_type((TimeoutError, telebot.apihelper.ApiTelegramException)))`
with tenacity defaults, in particular `reraise=False`.  Tenacity runs
attempts; after a failed attempt it first asks the retry predicate (a
non-matching exception is re-raised as is), then the stop predicate
(`attempt_number >= 3` stops, raising `tenacity.RetryError` wrapping the
last attempt), and otherwise sleeps `wait_exponential`, which returns
`max(max(0, min), min(multiplier * 2 ** (attempt_number - 1), max))`
seconds, and runs the next attempt. -/

/-- Classification of the exception an attempt of the wrapped
`bot.send_audio` call raises. -/
inductive SendExc where
  /-- Python `TimeoutError`. -/
  | timeout
  /-- `telebot.apihelper.ApiTelegramException`. -/
  | apiTelegram
  /-- any exception of another type. -/
  | other
deriving DecidableEq, Fintype

/-- `retry_if_exception_type((TimeoutError, telebot.apihelper.ApiTelegramException))`. -/
def isRetryableExc : SendExc → Bool
  | .timeout => true
  | .apiTelegram => true
  | .other => false

/-- Outcome of one attempt of the wrapped call. -/
inductive AttemptResult where
  /-- the call returned normally. -/
  | ok
  /-- the call raised an exception classified as `e`. -/
  | exc (e : SendExc)
deriving DecidableEq, Fintype

/-- What the decorated function as a whole does. -/
inductive RetryOutcome where
  /-- returned normally on the given attempt. -/
  | success (attempts : Nat)
  /-- raised `tenacity.RetryError` wrapping the last attempt exception,
  after the stop condition fired. -/
  | retryError (last : SendExc) (attempts : Nat)
  /-- re-raised the attempt exception itself (retry predicate rejected it). -/
  | raised (e : SendExc) (attempts : Nat)
deriving DecidableEq

/-- Number of attempts the run made. -/
def RetryOutcome.attempts : RetryOutcome → Nat
  | .success n => n
  | .retryError _ n => n
  | .raised _ n => n

/-- `wait_exponential(multiplier=1, min=4, max=10)` evaluated before
attempt `n + 1`:
`max(max(0, min), min(multiplier * 2 ** (attempt_number - 1), max))`. -/
def waitExponential (multiplier mn mx n : Nat) : Nat :=
  Nat.max (Nat.max 0 mn) (Nat.min (multiplier * 2 ^ (n - 1)) mx)

/-- The tenacity loop of send_audio_with_retry unrolled for
`stop_after_attempt(3)`, on the outcomes of the first, second and third
attempt (later attempts can never run): returns the overall outcome and
the list of sleeps performed, in seconds. -/
def sendAudioRetrySteps (a1 a2 a3 : AttemptResult) : RetryOutcome × List Nat :=
  match a1 with
  | .ok => (.success 1, [])
  | .exc e1 =>
    if !isRetryableExc e1 then (.raised e1 1, [])
    else
      let w1 := waitExponential 1 4 10 1
      match a2 with
      | .ok => (.success 2, [w1])
      | .exc e2 =>
        if !isRetryableExc e2 then (.raised e2 2, [w1])
        else
          let w2 := waitExponential 1 4 10 2
          match a3 with
          | .ok => (.success 3, [w1, w2])
          | .exc e3 =>
            if !isRetryableExc e3 then (.raised e3 3, [w1, w2])
            else (.retryError e3 3, [w1, w2])

/-- send_audio_with_retry on an oracle giving the outcome of the n-th
attempt of the wrapped call (1-indexed). -/
def send_audio_with_retry (attempt : Nat → AttemptResult) : RetryOutcome × List Nat :=
  sendAudioRetrySteps (attempt 1) (attempt 2) (attempt 3)

/-! ## Startup token check (src/bot.py lines 9-13) -/

/-- What module import time does before any message is handled. -/
inductive StartupResult where
  /-- `raise ValueError(msg)` fired; `telebot.TeleBot` was never constructed. -/
  | failed (msg : String)
  /-- `bot = telebot.TeleBot(bot_token)` was constructed with this token. -/
  | botConstructed (token : String)
deriving DecidableEq

/-- `bot_token = os.environ.get("TELEGRAM_BOT_TOKEN")` followed by
`if not bot_token: raise ValueError(...)` and then
`bot = telebot.TeleBot(bot_token)`.  The argument is the environment
variable lookup result (`none`: unset); Python `not` treats both `None`
and the empty string as falsy. -/
def startup (tokenVar : Option String) : StartupResult :=
  match tokenVar with
  | none => .failed "The TELEGRAM_BOT_TOKEN environment variable is not set."
  | some t =>
    if t.data.isEmpty then
      .failed "The TELEGRAM_BOT_TOKEN environment variable is not set."
    else
      .botConstructed t

/-! ## Health check server (src/health_check_server.py lines 6-11) -/

/-- An HTTP response as assembled by `BaseHTTPRequestHandler`:
`send_response(status)`, `send_header` pairs, then the body bytes. -/
structure HttpResponse where
  status : Nat
  headers : List (String × String)
  body : String
deriving DecidableEq

/-- `MyHandler.do_GET` (src/health_check_server.py lines 7-11): the request
path is never inspected; every GET gets status 200, one
`Content-type: text/html` header, and body `OK`. -/
def do_GET (_path : String) : HttpResponse :=
  { status := 200, headers := [("Content-type", "text/html")], body := "OK" }

/-! ## Spec-side definition for the metadata-format claim -/

/-- Modelled from the spec: the spec says the extractor invocation yields
"JSON metadata" that the program parses.  This is a necessary condition
for a string to be a JSON text: after stripping whitespace, its first
character begins a JSON value of the RFC 8259 grammar - an object, an
array, a string, a number, or one of the literals true, false, null. -/
def specJsonLeadChar (c : Char) : Bool :=
  c = '\x7b' || c = '[' || c = '"' || c = '-' || c.isDigit ||
  c = 't' || c = 'f' || c = 'n'

/-- Modelled from the spec: necessary condition for being a JSON text. -/
def specCouldBeJsonText (s : String) : Bool :=
  match (pyStrip s).data with
  | [] => false
  | c :: _ => specJsonLeadChar c

/-! ## Theorems -/

/-- Exhaustive behaviour of the unrolled tenacity loop, settled over the
finitely many outcome triples. -/
theorem sendAudioRetrySteps_spec (a1 a2 a3 : AttemptResult) :
    ((sendAudioRetrySteps a1 a2 a3).1.attempts ≤ 3) ∧
    (∀ w ∈ (sendAudioRetrySteps a1 a2 a3).2, 4 ≤ w ∧ w ≤ 10) ∧
    (a1 = .ok → sendAudioRetrySteps a1 a2 a3 = (.success 1, [])) ∧
    (∀ e, a1 = .exc e → isRetryableExc e = false →
      sendAudioRetrySteps a1 a2 a3 = (.raised e 1, [])) ∧
    (∀ e1 e2, a1 = .exc e1 → isRetryableExc e1 = true →
      a2 = .exc e2 → isRetryableExc e2 = false →
      sendAudioRetrySteps a1 a2 a3 = (.raised e2 2, [4])) ∧
    (∀ e1 e2 e3, a1 = .exc e1 → a2 = .exc e2 → a3 = .exc e3 →
      isRetryableExc e1 = true → isRetryableExc e2 = true → isRetryableExc e3 = true →
      sendAudioRetrySteps a1 a2 a3 = (.retryError e3 3, [4, 4])) ∧
    (2 ≤ (sendAudioRetrySteps a1 a2 a3).1.attempts →
      ∃ e, a1 = .exc e ∧ isRetryableExc e = true) ∧
    (3 ≤ (sendAudioRetrySteps a1 a2 a3).1.attempts →
      ∃ e, a2 = .exc e ∧ isRetryableExc e = true) := by
  refine ⟨?_, ?_, ?_, ?_, ?_, ?_, ?_, ?_⟩ <;> revert a1 a2 a3 <;> decide

/-- C1 (amended): send_audio_with_retry retries only when an attempt
raises TimeoutError or ApiTelegramException, sleeps between attempts with
the exponential-backoff wait of multiplier 1 clamped to the interval 4..10
seconds, makes at most 3 attempts, raises tenacity.RetryError wrapping the
third failure after the third failed attempt, and re-raises an exception
of any other type immediately without a retry. -/
theorem send_audio_with_retry_spec (attempt : Nat → AttemptResult) :
    ((send_audio_with_retry attempt).1.attempts ≤ 3) ∧
    (∀ w ∈ (send_audio_with_retry attempt).2, 4 ≤ w ∧ w ≤ 10) ∧
    (attempt 1 = .ok → send_audio_with_retry attempt = (.success 1, [])) ∧
    (∀ e, attempt 1 = .exc e → isRetryableExc e = false →
      send_audio_with_retry attempt = (.raised e 1, [])) ∧
    (∀ e1 e2, attempt 1 = .exc e1 → isRetryableExc e1 = true →
      attempt 2 = .exc e2 → isRetryableExc e2 = false →
      send_audio_with_retry attempt = (.raised e2 2, [4])) ∧
    (∀ e1 e2 e3, attempt 1 = .exc e1 → attempt 2 = .exc e2 → attempt 3 = .exc e3 →
      isRetryableExc e1 = true → isRetryableExc e2 = true → isRetryableExc e3 = true →
      send_audio_with_retry attempt = (.retryError e3 3, [4, 4])) ∧
    (2 ≤ (send_audio_with_retry attempt).1.attempts →
      ∃ e, attempt 1 = .exc e ∧ isRetryableExc e = true) ∧
    (3 ≤ (send_audio_with_retry attempt).1.attempts →
      ∃ e, attempt 2 = .exc e ∧ isRetryableExc e = true) :=
  sendAudioRetrySteps_spec (attempt 1) (attempt 2) (attempt 3)

/-- C1 witness: at the oracle whose every attempt raises an exception of a
non-retryable type, the call re-raises it after one attempt. -/
theorem send_audio_with_retry_spec_witness :
    send_audio_with_retry (fun _ => AttemptResult.exc SendExc.other) =
      (RetryOutcome.raised SendExc.other 1, []) :=
  (send_audio_with_retry_spec (fun _ => AttemptResult.exc SendExc.other)).2.2.2.1
    SendExc.other rfl rfl

/-- C1 counterexample: when all three attempts raise TimeoutError, the
decorated call does not re-raise the TimeoutError after the third failure;
it raises tenacity.RetryError wrapping it (tenacity default reraise=False). -/
theorem send_audio_with_retry_no_reraise :
    (send_audio_with_retry (fun _ => AttemptResult.exc SendExc.timeout)).1 =
      RetryOutcome.retryError SendExc.timeout 3 ∧
    (send_audio_with_retry (fun _ => AttemptResult.exc SendExc.timeout)).1 ≠
      RetryOutcome.raised SendExc.timeout 3 := by
  decide

/-- C9: when the TELEGRAM_BOT_TOKEN environment variable is unset or
empty, startup raises ValueError with the fixed message and the bot is
never constructed. -/
theorem startup_requires_token (tokenVar : Option String)
    (h : tokenVar = none ∨ tokenVar = some "") :
    startup tokenVar =
      .failed "The TELEGRAM_BOT_TOKEN environment variable is not set." ∧
    ∀ t, startup tokenVar ≠ StartupResult.botConstructed t := by
  rcases h with h | h <;> subst h <;> exact ⟨rfl, fun t h => by cases h⟩

/-- C9 witness: the unset-variable case. -/
theorem startup_requires_token_witness :
    startup none =
      .failed "The TELEGRAM_BOT_TOKEN environment variable is not set." ∧
    ∀ t, startup none ≠ StartupResult.botConstructed t :=
  startup_requires_token none (Or.inl rfl)

/-- C10: do_GET answers every GET request, whatever the request path,
with status 200, a Content-type header of text/html, and body OK. -/
theorem do_GET_always_ok (path : String) :
    (do_GET path).status = 200 ∧
    (do_GET path).headers = [("Content-type", "text/html")] ∧
    (do_GET path).body = "OK" :=
  ⟨rfl, rfl, rfl⟩

/-- C4: a stripped message text without the substring soundcloud.com gets
exactly the single reply "Please send a valid SoundCloud track URL." and
nothing else - no extractor call, no directory, no delivery; a stripped
text containing the substring proceeds: the handler replies with the
processing notice and invokes the extractor next. -/
theorem handle_message_url_guard (msg : Message) (env : Env) :
    (strContainsSub (pyStrip msg.text) "soundcloud.com" = false →
      handle_message msg env = [.replyTo "Please send a valid SoundCloud track URL."]) ∧
    (strContainsSub (pyStrip msg.text) "soundcloud.com" = true →
      (handle_message msg env).take 2 =
        [.replyTo "Processing your SoundCloud link... This may take a moment.",
         .fetchInfo (infoCmd (pyStrip msg.text))]) := by
  constructor
  · intro h
    simp [handle_message, h]
  · intro h
    obtain ⟨io, dOk, fEx, pr, ffOk, aOk, docOk⟩ := env
    cases io with
    | none => simp [handle_message, h, tryBody]
    | some raw =>
      rcases hp : parseInfo (pyStrip raw) with _ | ⟨ra, rt, ex⟩ <;>
        cases dOk <;> cases fEx <;> cases ffOk <;> cases aOk <;> cases docOk <;>
          simp [handle_message, h, tryBody, hp]

/-- C4 witness: a message without the substring is rejected with the fixed
reply; one containing it starts processing. -/
theorem handle_message_url_guard_witness :
    handle_message { text := "hello", chatId := 1, messageId := 2 }
        { infoOutput := none, downloadOk := true, fileExists := true,
          probeOutput := none, ffmpegOk := true, audioSendOk := true,
          documentSendOk := true } =
      [.replyTo "Please send a valid SoundCloud track URL."] :=
  (handle_message_url_guard
    { text := "hello", chatId := 1, messageId := 2 }
    { infoOutput := none, downloadOk := true, fileExists := true,
      probeOutput := none, ffmpegOk := true, audioSendOk := true,
      documentSendOk := true }).1 (by decide)

/-- C3: whenever a run of handle_message creates the per-track directory,
the finally-block cleanup also removes it, on the success path and on
every error path alike, so the directory no longer exists when
handle_message returns. -/
theorem handle_message_cleans_up (msg : Message) (env : Env) (f : String)
    (h : Action.makedirs f ∈ handle_message msg env) :
    Action.rmtree f ∈ handle_message msg env ∧
    folderExistsAfter f (handle_message msg env) = false := by
  rcases hc : strContainsSub (pyStrip msg.text) "soundcloud.com" with _ | _
  · simp [handle_message, hc] at h
  · obtain ⟨io, dOk, fEx, pr, ffOk, aOk, docOk⟩ := env
    cases io with
    | none => simp [handle_message, hc, tryBody] at h
    | some raw =>
      rcases hp : parseInfo (pyStrip raw) with _ | ⟨ra, rt, ex⟩ <;>
        cases dOk <;> cases fEx <;> cases ffOk <;> cases aOk <;> cases docOk <;>
          simp [handle_message, hc, tryBody, hp] at h ⊢ <;>
            simp [h, folderExistsAfter]

/-- C3 witness: a run in which the download fails still removes the
directory it created. -/
theorem handle_message_cleans_up_witness :
    Action.rmtree "/tmp/A - T" ∈
      handle_message { text := "x soundcloud.com y", chatId := 1, messageId := 2 }
        { infoOutput := some "A|||T|||mp3", downloadOk := false, fileExists := false,
          probeOutput := none, ffmpegOk := true, audioSendOk := true,
          documentSendOk := true } ∧
    folderExistsAfter "/tmp/A - T"
      (handle_message { text := "x soundcloud.com y", chatId := 1, messageId := 2 }
        { infoOutput := some "A|||T|||mp3", downloadOk := false, fileExists := false,
          probeOutput := none, ffmpegOk := true, audioSendOk := true,
          documentSendOk := true }) = false :=
  handle_message_cleans_up
    { text := "x soundcloud.com y", chatId := 1, messageId := 2 }
    { infoOutput := some "A|||T|||mp3", downloadOk := false, fileExists := false,
      probeOutput := none, ffmpegOk := true, audioSendOk := true,
      documentSendOk := true }
    "/tmp/A - T" (by decide)

/-- C2: on a run that reaches the delivery step, if send_audio_with_retry
raises any exception the handler makes exactly one fallback
bot.send_document call, on the same file as the audio send, with visible
file name artist - title.ext, caption artist - title and the same
reply-to message id; if send_audio_with_retry succeeds, no send_document
call is ever made. -/
theorem handle_message_document_fallback (msg : Message) (env : Env)
    (raw ra rt ex : String)
    (hc : strContainsSub (pyStrip msg.text) "soundcloud.com" = true)
    (hio : env.infoOutput = some raw)
    (hp : parseInfo (pyStrip raw) = some (ra, rt, ex))
    (hd : env.downloadOk = true)
    (hf : env.fileExists = true)
    (hff : env.ffmpegOk = true) :
    (env.audioSendOk = false →
      countDocumentSends (handle_message msg env) = 1 ∧
      Action.sendAudio msg.chatId
          ("/tmp/" ++ (sanitize ra ++ " - " ++ sanitize rt) ++ "/" ++
            ("01 " ++ sanitize rt ++ "." ++ ex))
          (sanitize rt) (sanitize ra) (durationOf env.probeOutput) msg.messageId
        ∈ handle_message msg env ∧
      Action.sendDocument msg.chatId
          ("/tmp/" ++ (sanitize ra ++ " - " ++ sanitize rt) ++ "/" ++
            ("01 " ++ sanitize rt ++ "." ++ ex))
          (sanitize ra ++ " - " ++ sanitize rt ++ "." ++ ex)
          (sanitize ra ++ " - " ++ sanitize rt) msg.messageId
        ∈ handle_message msg env) ∧
    (env.audioSendOk = true →
      countDocumentSends (handle_message msg env) = 0) := by
  constructor <;> intro ha <;>
    cases hdoc : env.documentSendOk <;>
      simp [handle_message, hc, tryBody, hio, hp, hd, hf, hff, ha, hdoc,
            countDocumentSends, isDocumentSend]

/-- C2 witness: a concrete run whose audio send fails makes exactly one
document fallback call with the stated fields. -/
theorem handle_message_document_fallback_witness :
    countDocumentSends
        (handle_message { text := "soundcloud.com/t", chatId := 5, messageId := 9 }
          { infoOutput := some "A|||T|||mp3", downloadOk := true, fileExists := true,
            probeOutput := none, ffmpegOk := true, audioSendOk := false,
            documentSendOk := true }) = 1 ∧
    Action.sendAudio 5
        ("/tmp/" ++ (sanitize "A" ++ " - " ++ sanitize "T") ++ "/" ++
          ("01 " ++ sanitize "T" ++ "." ++ "mp3"))
        (sanitize "T") (sanitize "A") (durationOf none) 9
      ∈ handle_message { text := "soundcloud.com/t", chatId := 5, messageId := 9 }
          { infoOutput := some "A|||T|||mp3", downloadOk := true, fileExists := true,
            probeOutput := none, ffmpegOk := true, audioSendOk := false,
            documentSendOk := true } ∧
    Action.sendDocument 5
        ("/tmp/" ++ (sanitize "A" ++ " - " ++ sanitize "T") ++ "/" ++
          ("01 " ++ sanitize "T" ++ "." ++ "mp3"))
        (sanitize "A" ++ " - " ++ sanitize "T" ++ "." ++ "mp3")
        (sanitize "A" ++ " - " ++ sanitize "T") 9
      ∈ handle_message { text := "soundcloud.com/t", chatId := 5, messageId := 9 }
          { infoOutput := some "A|||T|||mp3", downloadOk := true, fileExists := true,
            probeOutput := none, ffmpegOk := true, audioSendOk := false,
            documentSendOk := true } :=
  (handle_message_document_fallback
    { text := "soundcloud.com/t", chatId := 5, messageId := 9 }
    { infoOutput := some "A|||T|||mp3", downloadOk := true, fileExists := true,
      probeOutput := none, ffmpegOk := true, audioSendOk := false,
      documentSendOk := true }
    "A|||T|||mp3" "A" "T" "mp3"
    (by decide) rfl (by decide) rfl rfl rfl).1 rfl

/-- C5: sanitized artist and title contain none of the characters of the
invalid class (each replaced by an underscore after stripping), are at
most 50 characters long, and the handler builds the folder
/tmp/artist - title and, inside it, the file 01 title.ext. -/
theorem sanitize_and_paths (s : String) (msg : Message) (env : Env)
    (raw ra rt ex : String)
    (hc : strContainsSub (pyStrip msg.text) "soundcloud.com" = true)
    (hio : env.infoOutput = some raw)
    (hp : parseInfo (pyStrip raw) = some (ra, rt, ex)) :
    (∀ c ∈ (sanitize s).data, invalidChar c = false) ∧
    (sanitize s).length ≤ 50 ∧
    Action.makedirs ("/tmp/" ++ (sanitize ra ++ " - " ++ sanitize rt))
      ∈ handle_message msg env ∧
    Action.download
        (dlCmd ("/tmp/" ++ (sanitize ra ++ " - " ++ sanitize rt) ++ "/" ++
                 ("01 " ++ sanitize rt ++ "." ++ ex))
               (pyStrip msg.text))
      ∈ handle_message msg env := by
  refine ⟨?_, ?_, ?_, ?_⟩
  · intro c hcmem
    have h1 : c ∈ ((pyStrip s).data.map (fun c => if invalidChar c then '_' else c)).take 50 :=
      hcmem
    obtain ⟨c0, -, rfl⟩ := List.mem_map.mp (List.take_subset _ _ h1)
    cases hi : invalidChar c0 with
    | false => simp [hi]
    | true =>
      simp only [hi, if_true]
      decide
  · have h1 : (sanitize s).length =
        (((pyStrip s).data.map (fun c => if invalidChar c then '_' else c)).take 50).length :=
      rfl
    rw [h1, List.length_take]
    exact Nat.min_le_left _ _
  all_goals
    cases hdl : env.downloadOk <;> cases hfe : env.fileExists <;>
      cases hff : env.ffmpegOk <;> cases ha : env.audioSendOk <;>
        cases hdoc : env.documentSendOk <;>
          simp [handle_message, hc, tryBody, hio, hp, hdl, hfe, hff, ha, hdoc]

/-- C5 witness: concrete consequences at artist "A/B:C?" and title "T", a
run whose metadata step succeeds. -/
theorem sanitize_and_paths_witness :
    (sanitize "A/B:C?").length ≤ 50 ∧
    Action.makedirs ("/tmp/" ++ (sanitize "A/B:C?" ++ " - " ++ sanitize "T"))
      ∈ handle_message { text := "soundcloud.com/t", chatId := 5, messageId := 9 }
          { infoOutput := some "A/B:C?|||T|||mp3", downloadOk := true, fileExists := true,
            probeOutput := none, ffmpegOk := true, audioSendOk := true,
            documentSendOk := true } :=
  ⟨(sanitize_and_paths "A/B:C?"
      { text := "soundcloud.com/t", chatId := 5, messageId := 9 }
      { infoOutput := some "A/B:C?|||T|||mp3", downloadOk := true, fileExists := true,
        probeOutput := none, ffmpegOk := true, audioSendOk := true,
        documentSendOk := true }
      "A/B:C?|||T|||mp3" "A/B:C?" "T" "mp3" (by decide) rfl (by decide)).2.1,
   (sanitize_and_paths "A/B:C?"
      { text := "soundcloud.com/t", chatId := 5, messageId := 9 }
      { infoOutput := some "A/B:C?|||T|||mp3", downloadOk := true, fileExists := true,
        probeOutput := none, ffmpegOk := true, audioSendOk := true,
        documentSendOk := true }
      "A/B:C?|||T|||mp3" "A/B:C?" "T" "mp3" (by decide) rfl (by decide)).2.2.1⟩

/-- C8: the duration probe never aborts the pipeline - on any probe
outcome the run still tags the file, and, when ffmpeg succeeds, still
performs the audio send, whose duration argument is None when the probe
raised or printed only whitespace and int(float(output)) when the probe
printed a parseable number. -/
theorem handle_message_duration_probe (msg : Message) (env : Env)
    (raw ra rt ex : String)
    (hc : strContainsSub (pyStrip msg.text) "soundcloud.com" = true)
    (hio : env.infoOutput = some raw)
    (hp : parseInfo (pyStrip raw) = some (ra, rt, ex))
    (hd : env.downloadOk = true)
    (hf : env.fileExists = true) :
    Action.probeDuration
        (durationCmd ("/tmp/" ++ (sanitize ra ++ " - " ++ sanitize rt) ++ "/" ++
          ("01 " ++ sanitize rt ++ "." ++ ex)))
      ∈ handle_message msg env ∧
    Action.tagAudio
        (ffmpegCmd ("/tmp/" ++ (sanitize ra ++ " - " ++ sanitize rt) ++ "/" ++
            ("01 " ++ sanitize rt ++ "." ++ ex))
          ("/tmp/" ++ (sanitize ra ++ " - " ++ sanitize rt) ++ "/" ++
            ("01 " ++ sanitize rt ++ " (tagged)." ++ ex))
          (sanitize rt) (sanitize ra))
      ∈ handle_message msg env ∧
    (env.ffmpegOk = true →
      Action.sendAudio msg.chatId
          ("/tmp/" ++ (sanitize ra ++ " - " ++ sanitize rt) ++ "/" ++
            ("01 " ++ sanitize rt ++ "." ++ ex))
          (sanitize rt) (sanitize ra) (durationOf env.probeOutput) msg.messageId
        ∈ handle_message msg env) ∧
    durationOf none = none ∧
    (∀ s, (pyStrip s).data = [] → durationOf (some s) = none) ∧
    (∀ s, (pyStrip s).data ≠ [] → durationOf (some s) = pyTruncFloat (pyStrip s)) := by
  refine ⟨?_, ?_, ?_, rfl, ?_, ?_⟩
  · cases hff : env.ffmpegOk <;> cases ha : env.audioSendOk <;>
      cases hdoc : env.documentSendOk <;>
        simp [handle_message, hc, tryBody, hio, hp, hd, hf, hff, ha, hdoc]
  · cases hff : env.ffmpegOk <;> cases ha : env.audioSendOk <;>
      cases hdoc : env.documentSendOk <;>
        simp [handle_message, hc, tryBody, hio, hp, hd, hf, hff, ha, hdoc]
  · intro hff
    cases ha : env.audioSendOk <;> cases hdoc : env.documentSendOk <;>
      simp [handle_message, hc, tryBody, hio, hp, hd, hf, hff, ha, hdoc]
  · intro s hs
    simp [durationOf, hs]
  · intro s hs
    cases hcons : (pyStrip s).data with
    | nil => exact absurd hcons hs
    | cons c l => simp [durationOf, hcons]

/-- C8 witness: a run whose probe raised still reaches tagging and sends
with duration None; a probe output of 245.5 yields duration 245. -/
theorem handle_message_duration_probe_witness :
    Action.tagAudio
        (ffmpegCmd ("/tmp/" ++ (sanitize "A" ++ " - " ++ sanitize "T") ++ "/" ++
            ("01 " ++ sanitize "T" ++ "." ++ "mp3"))
          ("/tmp/" ++ (sanitize "A" ++ " - " ++ sanitize "T") ++ "/" ++
            ("01 " ++ sanitize "T" ++ " (tagged)." ++ "mp3"))
          (sanitize "T") (sanitize "A"))
      ∈ handle_message { text := "soundcloud.com/t", chatId := 5, messageId := 9 }
          { infoOutput := some "A|||T|||mp3", downloadOk := true, fileExists := true,
            probeOutput := none, ffmpegOk := true, audioSendOk := true,
            documentSendOk := true } ∧
    durationOf (some "245.5\n") = some 245 :=
  ⟨(handle_message_duration_probe
      { text := "soundcloud.com/t", chatId := 5, messageId := 9 }
      { infoOutput := some "A|||T|||mp3", downloadOk := true, fileExists := true,
        probeOutput := none, ffmpegOk := true, audioSendOk := true,
        documentSendOk := true }
      "A|||T|||mp3" "A" "T" "mp3" (by decide) rfl (by decide) rfl rfl).2.1,
   by decide⟩

/-- C6 counterexample: the extractor output that the code parses
successfully - here Daft Punk|||One More Time|||mp3, from which the run
builds its folder - is not a JSON text (its first character begins no
JSON value), so artist, title and extension are not parsed from JSON
output. -/
theorem metadata_not_json_counterexample :
    parseInfo "Daft Punk|||One More Time|||mp3" =
      some ("Daft Punk", "One More Time", "mp3") ∧
    specCouldBeJsonText "Daft Punk|||One More Time|||mp3" = false ∧
    Action.makedirs "/tmp/Daft Punk - One More Time"
      ∈ handle_message { text := "soundcloud.com/t", chatId := 1, messageId := 2 }
          { infoOutput := some "Daft Punk|||One More Time|||mp3",
            downloadOk := true, fileExists := true, probeOutput := none,
            ffmpegOk := true, audioSendOk := true, documentSendOk := true } := by
  refine ⟨by decide, by decide, ?_⟩
  set_option maxRecDepth 10000 in decide

/-- C6 (amended): the metadata step invokes the extractor with a --print
template producing uploader|||title|||ext, and artist, title and
extension are parsed by splitting that printed output on the delimiter
|||, succeeding exactly when the split yields three parts. -/
theorem metadata_print_template (msg : Message) (env : Env)
    (hc : strContainsSub (pyStrip msg.text) "soundcloud.com" = true) :
    Action.fetchInfo
        ["yt-dlp", "--print", "%(uploader)s|||%(title)s|||%(ext)s", pyStrip msg.text]
      ∈ handle_message msg env ∧
    (∀ s a t e, parseInfo s = some (a, t, e) ↔ pySplit s "|||" = [a, t, e]) := by
  constructor
  · cases hio : env.infoOutput with
    | none => simp [handle_message, hc, tryBody, hio, infoCmd]
    | some raw =>
      rcases hp : parseInfo (pyStrip raw) with _ | ⟨ra, rt, ex⟩ <;>
        cases hdl : env.downloadOk <;> cases hfe : env.fileExists <;>
          cases hff : env.ffmpegOk <;> cases ha : env.audioSendOk <;>
            cases hdoc : env.documentSendOk <;>
              simp [handle_message, hc, tryBody, hio, hp, hdl, hfe, hff, ha, hdoc, infoCmd]
  · intro s a t e
    rcases hsp : pySplit s "|||" with _ | ⟨x, _ | ⟨y, _ | ⟨z, _ | ⟨w, l⟩⟩⟩⟩ <;>
      simp [parseInfo, hsp]

/-- C6 witness: a run whose extractor call raised still issued the
template command first. -/
theorem metadata_print_template_witness :
    Action.fetchInfo
        ["yt-dlp", "--print", "%(uploader)s|||%(title)s|||%(ext)s",
         pyStrip "soundcloud.com/t"]
      ∈ handle_message { text := "soundcloud.com/t", chatId := 1, messageId := 2 }
          { infoOutput := none, downloadOk := true, fileExists := true,
            probeOutput := none, ffmpegOk := true, audioSendOk := true,
            documentSendOk := true } :=
  (metadata_print_template
    { text := "soundcloud.com/t", chatId := 1, messageId := 2 }
    { infoOutput := none, downloadOk := true, fileExists := true,
      probeOutput := none, ffmpegOk := true, audioSendOk := true,
      documentSendOk := true } (by decide)).1

/-- C7 counterexample: on a two-entry playlist the extractor print yields
two lines, the split on ||| yields five parts, the triple unpack raises,
and the run ends with an error reply and zero deliveries - not one
delivery per downloaded file, and no list of file-metadata pairs is ever
formed. -/
theorem playlist_no_per_entry_delivery :
    handle_message { text := "soundcloud.com/sets/p", chatId := 3, messageId := 4 }
        { infoOutput := some "A|||T1|||mp3\nB|||T2|||mp3",
          downloadOk := true, fileExists := true, probeOutput := none,
          ffmpegOk := true, audioSendOk := true, documentSendOk := true } =
      [.replyTo "Processing your SoundCloud link... This may take a moment.",
       .fetchInfo (infoCmd "soundcloud.com/sets/p"),
       .errorReply (.unpackMismatch 5)] ∧
    countAudioSends
        (handle_message { text := "soundcloud.com/sets/p", chatId := 3, messageId := 4 }
          { infoOutput := some "A|||T1|||mp3\nB|||T2|||mp3",
            downloadOk := true, fileExists := true, probeOutput := none,
            ffmpegOk := true, audioSendOk := true, documentSendOk := true }) = 0 ∧
    countDocumentSends
        (handle_message { text := "soundcloud.com/sets/p", chatId := 3, messageId := 4 }
          { infoOutput := some "A|||T1|||mp3\nB|||T2|||mp3",
            downloadOk := true, fileExists := true, probeOutput := none,
            ffmpegOk := true, audioSendOk := true, documentSendOk := true }) = 0 := by
  set_option maxRecDepth 10000 in decide

/-- C7 (amended): handle_message processes a single track per message -
at most one audio delivery and at most one document fallback per run;
when the extractor print does not split into exactly three parts (in
particular the multi-line print of a multi-entry playlist), the triple
unpack fails and the run makes no delivery at all, ending in an error
reply. -/
theorem handle_message_single_track (msg : Message) (env : Env) :
    countAudioSends (handle_message msg env) ≤ 1 ∧
    countDocumentSends (handle_message msg env) ≤ 1 ∧
    (∀ raw, env.infoOutput = some raw → parseInfo (pyStrip raw) = none →
      strContainsSub (pyStrip msg.text) "soundcloud.com" = true →
      countAudioSends (handle_message msg env) = 0 ∧
      countDocumentSends (handle_message msg env) = 0 ∧
      Action.errorReply (.unpackMismatch (pySplit (pyStrip raw) "|||").length)
        ∈ handle_message msg env) := by
  refine ⟨?_, ?_, ?_⟩
  · rcases hc : strContainsSub (pyStrip msg.text) "soundcloud.com" with _ | _
    · simp [handle_message, hc, countAudioSends, isAudioSend]
    · cases hio : env.infoOutput with
      | none => simp [handle_message, hc, tryBody, hio, countAudioSends, isAudioSend]
      | some raw =>
        rcases hp : parseInfo (pyStrip raw) with _ | ⟨ra, rt, ex⟩ <;>
          cases hdl : env.downloadOk <;> cases hfe : env.fileExists <;>
            cases hff : env.ffmpegOk <;> cases ha : env.audioSendOk <;>
              cases hdoc : env.documentSendOk <;>
                simp [handle_message, hc, tryBody, hio, hp, hdl, hfe, hff, ha, hdoc,
                      countAudioSends, isAudioSend]
  · rcases hc : strContainsSub (pyStrip msg.text) "soundcloud.com" with _ | _
    · simp [handle_message, hc, countDocumentSends, isDocumentSend]
    · cases hio : env.infoOutput with
      | none => simp [handle_message, hc, tryBody, hio, countDocumentSends, isDocumentSend]
      | some raw =>
        rcases hp : parseInfo (pyStrip raw) with _ | ⟨ra, rt, ex⟩ <;>
          cases hdl : env.downloadOk <;> cases hfe : env.fileExists <;>
            cases hff : env.ffmpegOk <;> cases ha : env.audioSendOk <;>
              cases hdoc : env.documentSendOk <;>
                simp [handle_message, hc, tryBody, hio, hp, hdl, hfe, hff, ha, hdoc,
                      countDocumentSends, isDocumentSend]
  · intro raw hio hp hc
    refine ⟨?_, ?_, ?_⟩ <;>
      simp [handle_message, hc, tryBody, hio, hp,
            countAudioSends, isAudioSend, countDocumentSends, isDocumentSend]

/-- C7 witness: the two-entry playlist run, through the amended theorem. -/
theorem handle_message_single_track_witness :
    countAudioSends
        (handle_message { text := "soundcloud.com/sets/q", chatId := 3, messageId := 4 }
          { infoOutput := some "A|||T1|||mp3\nB|||T2|||mp3",
            downloadOk := true, fileExists := true, probeOutput := none,
            ffmpegOk := true, audioSendOk := true, documentSendOk := true }) = 0 ∧
    countDocumentSends
        (handle_message { text := "soundcloud.com/sets/q", chatId := 3, messageId := 4 }
          { infoOutput := some "A|||T1|||mp3\nB|||T2|||mp3",
            downloadOk := true, fileExists := true, probeOutput := none,
            ffmpegOk := true, audioSendOk := true, documentSendOk := true }) = 0 ∧
    Action.errorReply
        (.unpackMismatch (pySplit (pyStrip "A|||T1|||mp3\nB|||T2|||mp3") "|||").length)
      ∈ handle_message { text := "soundcloud.com/sets/q", chatId := 3, messageId := 4 }
          { infoOutput := some "A|||T1|||mp3\nB|||T2|||mp3",
            downloadOk := true, fileExists := true, probeOutput := none,
            ffmpegOk := true, audioSendOk := true, documentSendOk := true } :=
  (handle_message_single_track
    { text := "soundcloud.com/sets/q", chatId := 3, messageId := 4 }
    { infoOutput := some "A|||T1|||mp3\nB|||T2|||mp3",
      downloadOk := true, fileExists := true, probeOutput := none,
      ffmpegOk := true, audioSendOk := true, documentSendOk := true }).2.2
    "A|||T1|||mp3\nB|||T2|||mp3" rfl (by decide) (by decide)

end SCDL
